import Mathlib

/-!
Shallow embedding of the STM32 DMAv1_MUX DMA helper driver
(os/hal/ports/STM32/LLD/DMAv1_MUX/stm32_dma.h) and of the CFE PSP
module (os/common/abstractions/nasa_osal/lib/cfe_psp_chibios.c).

Registers are modelled as natural numbers with explicit 32-bit masking
where the C code relies on fixed-width complement.  Each driver macro
becomes a Lean function from the visible register state to the new
state together with the ordered list of register writes (and callback
invocations) it performs, so that ordering and exactness claims can be
stated on the emitted event trace.
-/

/-- Modelled from the spec: the device (CMSIS) header defining the
`DMA_CCR_*` bit masks is not under src/.  Values follow the STM32 DMAv1
channel configuration register layout documented by the spec, in
particular the contract that each status bit and its interrupt-enable
bit occupy the same bit position in their respective registers. -/
def DMA_CCR_EN : Nat := 0x1

def DMA_CCR_TCIE : Nat := 0x2

def DMA_CCR_HTIE : Nat := 0x4

def DMA_CCR_TEIE : Nat := 0x8

def DMA_CCR_DIR : Nat := 0x10

def DMA_CCR_PINC : Nat := 0x40

def DMA_CCR_MINC : Nat := 0x80

def DMA_CCR_MEM2MEM : Nat := 0x4000

/-- Modelled from the spec: the device (CMSIS) header defining the
`DMA_ISR_*` status bits is not under src/.  Per stream the shared status
register holds four bits: global flag (bit 0 of the window), transfer
complete (bit 1), half transfer (bit 2), transfer error (bit 3). -/
def DMA_ISR_TCIF1 : Nat := 0x2

def DMA_ISR_HTIF1 : Nat := 0x4

def DMA_ISR_TEIF1 : Nat := 0x8

/-- Mask of the ISR bits passed to the DMA callback functions (source
line 51: `#define STM32_DMA_ISR_MASK 0x0E`). -/
def STM32_DMA_ISR_MASK : Nat := 0x0E

/-- From stream number to shift factor in the ISR and IFCR registers
(source line 56). -/
def STM32_DMA_ISR_SHIFT (stream : Nat) : Nat := (stream - 1) * 4

/-- Checks if a DMA priority is within the valid range (source line 66:
`(((prio) >= 0U) && ((prio) <= 3U))`, over an unsigned value). -/
def STM32_DMA_IS_VALID_PRIORITY (prio : Nat) : Bool :=
  decide (0 ≤ prio) && decide (prio ≤ 3)

def STM32_DMA_CR_EN : Nat := DMA_CCR_EN

def STM32_DMA_CR_TEIE : Nat := DMA_CCR_TEIE

def STM32_DMA_CR_HTIE : Nat := DMA_CCR_HTIE

def STM32_DMA_CR_TCIE : Nat := DMA_CCR_TCIE

def STM32_DMA_CR_DIR_M2M : Nat := DMA_CCR_MEM2MEM

def STM32_DMA_CR_PINC : Nat := DMA_CCR_PINC

def STM32_DMA_CR_MINC : Nat := DMA_CCR_MINC

/-- All registers are 32 bits wide; C bitwise complement `~m` on a
`uint32_t` is `MASK32 ^^^ m`. -/
def MASK32 : Nat := 0xFFFFFFFF

/-- The register state visible to one DMA stream: its channel registers
CPAR, CMAR, CNDTR, CCR and the owning controller's shared status
register ISR.  The shared clear-flags register IFCR is write-only; its
effect is modelled by `writeIFCR`. -/
structure DMAState where
  isr   : Nat
  cpar  : Nat
  cmar  : Nat
  cndtr : Nat
  ccr   : Nat
deriving Repr, DecidableEq

/-- The stream descriptor (source lines 175-185).  Only the `shift`
field enters the computations of the modelled macros; the `dma`,
`channel`, `cmask`, `mux`, `selfindex` and `vector` fields are pointers
and table indices whose roles are captured by `DMAState` and by the
`hasCallback` argument of `dmaServeInterrupt`. -/
structure stm32_dma_stream_t where
  shift : Nat
deriving Repr, DecidableEq

/-- The registers a driver macro can write. -/
inductive Reg where
  | cpar
  | cmar
  | cndtr
  | ccr
  | ifcr
deriving Repr, DecidableEq

/-- One observable action of a driver macro: a register write with the
value written, or a callback invocation with the flags argument. -/
inductive Event where
  | write (r : Reg) (v : Nat)
  | callback (flags : Nat)
deriving Repr, DecidableEq

/-- Hardware semantics of the shared clear-flags register: writing `v`
to IFCR clears the corresponding bits of the 32-bit ISR register. -/
def writeIFCR (s : DMAState) (v : Nat) : DMAState :=
  { s with isr := s.isr &&& (MASK32 ^^^ v) }

/-- Source lines 206-208: `(dmastp)->channel->CPAR = (uint32_t)(addr);`. -/
def dmaStreamSetPeripheral (s : DMAState) (addr : Nat) : DMAState × List Event :=
  ({ s with cpar := addr }, [Event.write Reg.cpar addr])

/-- Source lines 221-223: `(dmastp)->channel->CMAR = (uint32_t)(addr);`. -/
def dmaStreamSetMemory0 (s : DMAState) (addr : Nat) : DMAState × List Event :=
  ({ s with cmar := addr }, [Event.write Reg.cmar addr])

/-- Source lines 236-238: `(dmastp)->channel->CNDTR = (uint32_t)(size);`. -/
def dmaStreamSetTransactionSize (s : DMAState) (size : Nat) : DMAState × List Event :=
  ({ s with cndtr := size }, [Event.write Reg.cndtr size])

/-- Source line 251: reads the CNDTR register. -/
def dmaStreamGetTransactionSize (s : DMAState) : Nat := s.cndtr

/-- Source lines 264-266: `(dmastp)->channel->CCR = (uint32_t)(mode);`. -/
def dmaStreamSetMode (s : DMAState) (mode : Nat) : DMAState × List Event :=
  ({ s with ccr := mode }, [Event.write Reg.ccr mode])

/-- Source lines 278-280: `(dmastp)->channel->CCR |= STM32_DMA_CR_EN;`. -/
def dmaStreamEnable (s : DMAState) : DMAState × List Event :=
  ({ s with ccr := s.ccr ||| STM32_DMA_CR_EN },
   [Event.write Reg.ccr (s.ccr ||| STM32_DMA_CR_EN)])

/-- Source lines 312-314:
`(dmastp)->dma->IFCR = STM32_DMA_ISR_MASK << (dmastp)->shift;`. -/
def dmaStreamClearInterrupt (d : stm32_dma_stream_t) (s : DMAState) :
    DMAState × List Event :=
  let v := STM32_DMA_ISR_MASK <<< d.shift
  (writeIFCR s v, [Event.write Reg.ifcr v])

/-- Source lines 296-300: one CCR write clearing TCIE, HTIE, TEIE and EN
(`CCR &= ~(STM32_DMA_CR_TCIE | STM32_DMA_CR_HTIE | STM32_DMA_CR_TEIE |
STM32_DMA_CR_EN)`), then `dmaStreamClearInterrupt`. -/
def dmaStreamDisable (d : stm32_dma_stream_t) (s : DMAState) :
    DMAState × List Event :=
  let c := s.ccr &&&
    (MASK32 ^^^ (STM32_DMA_CR_TCIE ||| STM32_DMA_CR_HTIE |||
                 STM32_DMA_CR_TEIE ||| STM32_DMA_CR_EN))
  let s1 : DMAState := { s with ccr := c }
  let r := dmaStreamClearInterrupt d s1
  (r.1, Event.write Reg.ccr c :: r.2)

/-- Source lines 335-342: set peripheral = src, memory = dst,
transaction size = n, then mode = `(mode) | STM32_DMA_CR_MINC |
STM32_DMA_CR_PINC | STM32_DMA_CR_DIR_M2M | STM32_DMA_CR_EN`. -/
def dmaStartMemCopy (s : DMAState) (mode src dst n : Nat) :
    DMAState × List Event :=
  let r1 := dmaStreamSetPeripheral s src
  let r2 := dmaStreamSetMemory0 r1.1 dst
  let r3 := dmaStreamSetTransactionSize r2.1 n
  let r4 := dmaStreamSetMode r3.1
    (mode ||| STM32_DMA_CR_MINC ||| STM32_DMA_CR_PINC |||
     STM32_DMA_CR_DIR_M2M ||| STM32_DMA_CR_EN)
  (r4.1, r1.2 ++ r2.2 ++ r3.2 ++ r4.2)

/-- Modelled from the spec: the DMA hardware itself is not code of this
repository.  While a transfer is active the remaining-transfers register
decreases monotonically, reaching zero at completion; one hardware step
performs one data transfer. -/
def hwStep (s : DMAState) : DMAState := { s with cndtr := s.cndtr - 1 }

/-- Source lines 351-355: `while (CNDTR > 0) ; dmaStreamDisable;`.
`fuel` bounds the number of polls of CNDTR; between two polls the
hardware advances by one `hwStep`, and `none` means the busy-wait did
not terminate within `fuel` polls. -/
def dmaWaitCompletion (d : stm32_dma_stream_t) (fuel : Nat) (s : DMAState) :
    Option (DMAState × List Event) :=
  match fuel with
  | 0 => none
  | Nat.succ fuel =>
    if s.cndtr > 0 then dmaWaitCompletion d fuel (hwStep s)
    else some (dmaStreamDisable d s)

/-- Source lines 362-373.  `hasCallback` is whether the redirection
entry `_stm32_dma_isr_redir[idx].dma_func` is non-null; the callback
invocation is recorded as an `Event.callback` carrying the flags
argument `dma_func` receives. -/
def dmaServeInterrupt (d : stm32_dma_stream_t) (hasCallback : Bool)
    (s : DMAState) : DMAState × List Event :=
  let flags := (s.isr >>> d.shift) &&& STM32_DMA_ISR_MASK
  if flags &&& s.ccr ≠ 0 then
    let v := flags <<< d.shift
    let s1 := writeIFCR s v
    if hasCallback then (s1, [Event.write Reg.ifcr v, Event.callback flags])
    else (s1, [Event.write Reg.ifcr v])
  else (s, [])

/-- The values written to the shared clear-flags register in a trace. -/
def ifcrWrites (evs : List Event) : List Nat :=
  evs.filterMap fun e =>
    match e with
    | Event.write Reg.ifcr v => some v
    | _ => none

/-- The flags arguments of the callback invocations in a trace. -/
def callbackFlags (evs : List Event) : List Nat :=
  evs.filterMap fun e =>
    match e with
    | Event.callback f => some f
    | _ => none

/-- The allocator's error outcomes (spec section 7). -/
inductive AllocError where
  | invalidPriority
  | resourceExhausted
deriving Repr, DecidableEq

/-- Modelled from the spec: the body of `dmaStreamAllocate` lives in
stm32_dma.c, which is not under src/ (the header only declares it).
Spec section 4.1: a priority outside the valid closed range fails with
`InvalidPriority`; otherwise the first Free stream in table order is
chosen and its index returned; with no Free stream it fails with
`ResourceExhausted`.  `redir` lists, per stream index, whether a
callback is installed (a stream is Free iff its entry is `false`). -/
def dmaStreamAllocate (priority : Nat) (redir : List Bool) :
    Except AllocError Nat :=
  if STM32_DMA_IS_VALID_PRIORITY priority then
    match redir.findIdx? (fun b => !b) with
    | some i => Except.ok i
    | none => Except.error AllocError.resourceExhausted
  else Except.error AllocError.invalidPriority

/-- Outcome of a PSP entry point: either execution is halted permanently
(carrying the opaque code handed to the halt routine) or the call
returns to its caller. -/
inductive PSPOutcome where
  | halted (code : Int)
  | returned
deriving Repr, DecidableEq

/-- Modelled from the spec: `chSysHalt` is the external ChibiOS halt
routine (not under src/); per the spec's contract for the panic hook it
halts execution permanently and never returns.  The argument is the
opaque code the caller forwards (the source casts it to a pointer). -/
def chSysHalt (code : Int) : PSPOutcome := PSPOutcome.halted code

/-- cfe_psp_chibios.c lines 66-69: `chSysHalt((char *)ErrorCode);`. -/
def CFE_PSP_Panic (errorCode : Int) : PSPOutcome := chSysHalt errorCode

/-- cfe_psp_chibios.c lines 58-61: the body is `(void)reset_type;` —
the argument is discarded and the function falls through and returns. -/
def CFE_PSP_Restart (reset_type : Nat) : PSPOutcome :=
  PSPOutcome.returned

/-! ### General bit-level helper lemmas -/

theorem lor_land_absorb (a b : Nat) : (a ||| b) &&& b = b := by
  apply Nat.eq_of_testBit_eq
  intro i
  simp only [Nat.testBit_land, Nat.testBit_lor]
  cases a.testBit i <;> cases b.testBit i <;> rfl

theorem land_compl_land (a m v : Nat) (h : v &&& m = v) :
    (a &&& (m ^^^ v)) &&& v = 0 := by
  apply Nat.eq_of_testBit_eq
  intro i
  have hv : (v.testBit i && m.testBit i) = v.testBit i := by
    rw [← Nat.testBit_land, h]
  simp only [Nat.testBit_land, Nat.testBit_xor, Nat.zero_testBit]
  cases hvi : v.testBit i with
  | false => simp
  | true =>
    have hm : m.testBit i = true := by
      rw [hvi] at hv; simpa using hv
    simp [hm]

theorem shiftLeft_land_shiftLeft (a b n : Nat) :
    (a <<< n) &&& (b <<< n) = (a &&& b) <<< n := by
  apply Nat.eq_of_testBit_eq
  intro i
  simp only [Nat.testBit_land, Nat.testBit_shiftLeft]
  cases h : decide (n ≤ i) <;> cases a.testBit (i - n) <;>
    cases b.testBit (i - n) <;> rfl

theorem isrMask_shiftLeft_land_mask32 (sh : Nat) (h : sh ≤ 28) :
    (STM32_DMA_ISR_MASK <<< sh) &&& MASK32 = STM32_DMA_ISR_MASK <<< sh := by
  have h2 : (STM32_DMA_ISR_MASK <<< sh) < 2 ^ 32 := by
    rw [STM32_DMA_ISR_MASK, Nat.shiftLeft_eq]
    calc 14 * 2 ^ sh ≤ 14 * 2 ^ 28 :=
          Nat.mul_le_mul_left 14 (Nat.pow_le_pow_right (by norm_num) h)
      _ < 2 ^ 32 := by norm_num
  have h3 : MASK32 = 2 ^ 32 - 1 := by norm_num [MASK32]
  rw [h3]
  exact Nat.and_pow_two_sub_one_of_lt_two_pow h2

/-! ### Helper lemmas about the dispatcher -/

theorem serveInterrupt_ifcrWrites_pos (d : stm32_dma_stream_t) (cb : Bool)
    (s : DMAState)
    (h : ((s.isr >>> d.shift) &&& STM32_DMA_ISR_MASK) &&& s.ccr ≠ 0) :
    ifcrWrites (dmaServeInterrupt d cb s).2 =
      [((s.isr >>> d.shift) &&& STM32_DMA_ISR_MASK) <<< d.shift] := by
  simp only [dmaServeInterrupt]
  rw [if_pos h]
  cases cb <;> simp [ifcrWrites, List.filterMap]

theorem serveInterrupt_eq_of_zero (d : stm32_dma_stream_t) (cb : Bool)
    (s : DMAState)
    (h : ((s.isr >>> d.shift) &&& STM32_DMA_ISR_MASK) &&& s.ccr = 0) :
    dmaServeInterrupt d cb s = (s, []) := by
  simp only [dmaServeInterrupt]
  rw [if_neg (by simpa using h)]

theorem serveInterrupt_callbackFlags_none (d : stm32_dma_stream_t)
    (s : DMAState) :
    callbackFlags (dmaServeInterrupt d false s).2 = [] := by
  simp only [dmaServeInterrupt]
  by_cases h : ((s.isr >>> d.shift) &&& STM32_DMA_ISR_MASK) &&& s.ccr ≠ 0
  · rw [if_pos h]; simp [callbackFlags]
  · rw [if_neg h]; simp [callbackFlags]

theorem serveInterrupt_callbackFlags_pos (d : stm32_dma_stream_t)
    (s : DMAState)
    (h : ((s.isr >>> d.shift) &&& STM32_DMA_ISR_MASK) &&& s.ccr ≠ 0) :
    callbackFlags (dmaServeInterrupt d true s).2 =
      [(s.isr >>> d.shift) &&& STM32_DMA_ISR_MASK] := by
  simp only [dmaServeInterrupt]
  rw [if_pos h]
  simp [callbackFlags]

/-! ### Helper lemmas about disable and the polled wait -/

theorem dmaStreamDisable_trace (d : stm32_dma_stream_t) (s : DMAState) :
    (dmaStreamDisable d s).2 =
      [Event.write Reg.ccr (s.ccr &&&
          (MASK32 ^^^ (STM32_DMA_CR_TCIE ||| STM32_DMA_CR_HTIE |||
                       STM32_DMA_CR_TEIE ||| STM32_DMA_CR_EN))),
       Event.write Reg.ifcr (STM32_DMA_ISR_MASK <<< d.shift)] := rfl

theorem dmaStreamDisable_ccr_cleared (d : stm32_dma_stream_t) (s : DMAState) :
    (dmaStreamDisable d s).1.ccr &&&
      (STM32_DMA_CR_EN ||| STM32_DMA_CR_TCIE ||| STM32_DMA_CR_HTIE |||
       STM32_DMA_CR_TEIE) = 0 := by
  show (s.ccr &&&
      (MASK32 ^^^ (STM32_DMA_CR_TCIE ||| STM32_DMA_CR_HTIE |||
                   STM32_DMA_CR_TEIE ||| STM32_DMA_CR_EN))) &&& _ = 0
  have e1 : STM32_DMA_CR_TCIE ||| STM32_DMA_CR_HTIE |||
      STM32_DMA_CR_TEIE ||| STM32_DMA_CR_EN = 15 := by decide
  have e2 : STM32_DMA_CR_EN ||| STM32_DMA_CR_TCIE ||| STM32_DMA_CR_HTIE |||
      STM32_DMA_CR_TEIE = 15 := by decide
  rw [e1, e2]
  exact land_compl_land s.ccr MASK32 15 (by decide)

theorem dmaStreamDisable_enable_cleared (d : stm32_dma_stream_t)
    (s : DMAState) :
    (dmaStreamDisable d s).1.ccr &&& STM32_DMA_CR_EN = 0 := by
  show (s.ccr &&&
      (MASK32 ^^^ (STM32_DMA_CR_TCIE ||| STM32_DMA_CR_HTIE |||
                   STM32_DMA_CR_TEIE ||| STM32_DMA_CR_EN))) &&& _ = 0
  have e1 : STM32_DMA_CR_TCIE ||| STM32_DMA_CR_HTIE |||
      STM32_DMA_CR_TEIE ||| STM32_DMA_CR_EN = 15 := by decide
  have e3 : MASK32 ^^^ 15 = 0xFFFFFFF0 := by decide
  rw [e1, e3, Nat.land_assoc]
  have e4 : (0xFFFFFFF0 : Nat) &&& STM32_DMA_CR_EN = 0 := by decide
  rw [e4, Nat.and_zero]

theorem dmaStreamDisable_isr_cleared (d : stm32_dma_stream_t) (s : DMAState)
    (hsh : d.shift ≤ 28) :
    (dmaStreamDisable d s).1.isr &&& (STM32_DMA_ISR_MASK <<< d.shift) = 0 := by
  show (s.isr &&& (MASK32 ^^^ (STM32_DMA_ISR_MASK <<< d.shift))) &&& _ = 0
  exact land_compl_land s.isr MASK32 _ (isrMask_shiftLeft_land_mask32 d.shift hsh)

theorem dmaStreamDisable_cndtr (d : stm32_dma_stream_t) (s : DMAState) :
    (dmaStreamDisable d s).1.cndtr = s.cndtr := rfl

theorem dmaWaitCompletion_spec (d : stm32_dma_stream_t) :
    ∀ fuel s, s.cndtr < fuel →
    ∃ s2 c, dmaWaitCompletion d fuel s =
        some (s2, [Event.write Reg.ccr c,
                   Event.write Reg.ifcr (STM32_DMA_ISR_MASK <<< d.shift)]) ∧
      dmaStreamGetTransactionSize s2 = 0 ∧
      s2.ccr &&& STM32_DMA_CR_EN = 0 := by
  intro fuel
  induction fuel with
  | zero => intro s h; omega
  | succ fuel ih =>
    intro s h
    unfold dmaWaitCompletion
    by_cases hc : s.cndtr > 0
    · rw [if_pos hc]
      exact ih (hwStep s) (by simp only [hwStep]; omega)
    · rw [if_neg hc]
      refine ⟨(dmaStreamDisable d s).1, _,
        by rw [← dmaStreamDisable_trace d s], ?_, ?_⟩
      · show (dmaStreamDisable d s).1.cndtr = 0
        rw [dmaStreamDisable_cndtr]
        omega
      · exact dmaStreamDisable_enable_cleared d s

/-! ### Claim theorems -/

/-- C1, counterexample: with shift 0, ISR = 10 (transfer-error and
transfer-complete pending) and CCR = 2 (only transfer-complete-enable
set), the dispatcher writes 10 to the clear-flags register, while the
enabled-and-set bits re-shifted are only 2 — it acknowledges the
pending transfer-error bit although its enable bit is clear. -/
theorem C1_counterexample :
    ifcrWrites (dmaServeInterrupt ⟨0⟩ true ⟨10, 0, 0, 0, 2⟩).2 = [10] ∧
    ((((10 : Nat) >>> 0) &&& STM32_DMA_ISR_MASK) &&& 2) <<< 0 = 2 ∧
    (10 : Nat) ≠ 2 := by decide

/-- C1, amended: whenever at least one observed masked status bit has
its interrupt-enable bit set, dmaServeInterrupt writes to the
clear-flags register exactly the observed masked status bits re-shifted
to the stream's offset — all of them, including pending bits whose
enable bit is clear. -/
theorem C1_ack_all_observed_flags (d : stm32_dma_stream_t) (cb : Bool)
    (s : DMAState)
    (h : ((s.isr >>> d.shift) &&& STM32_DMA_ISR_MASK) &&& s.ccr ≠ 0) :
    ifcrWrites (dmaServeInterrupt d cb s).2 =
      [((s.isr >>> d.shift) &&& STM32_DMA_ISR_MASK) <<< d.shift] :=
  serveInterrupt_ifcrWrites_pos d cb s h

/-- C1, witness for the amended theorem at shift 0, ISR = 10, CCR = 2. -/
theorem C1_ack_all_observed_flags_witness :
    ifcrWrites (dmaServeInterrupt ⟨0⟩ true ⟨10, 0, 0, 0, 2⟩).2 =
      [((((10 : Nat)) >>> 0) &&& STM32_DMA_ISR_MASK) <<< 0] :=
  C1_ack_all_observed_flags ⟨0⟩ true ⟨10, 0, 0, 0, 2⟩ (by decide)

/-- C2, counterexample: with shift 4, ISR = 160 (transfer-error and
transfer-complete pending for the stream) and CCR = 2 (only
transfer-complete-enable set), the callback receives flags 10, which is
not contained in the enabled bits (10 AND 2 is not 10): the normalized
flags include the transfer-error bit whose enable bit is clear. -/
theorem C2_counterexample :
    callbackFlags (dmaServeInterrupt ⟨4⟩ true ⟨160, 0, 0, 0, 2⟩).2 = [10] ∧
    ((10 : Nat) &&& 2) ≠ 10 := by decide

/-- C2, amended: whenever the callback is invoked, its normalized flags
argument is exactly the observed masked status bits — all pending bits
in the three-bit window, including those whose interrupt-enable bit is
clear; the callback fires only when at least one observed bit has its
enable bit set. -/
theorem C2_callback_gets_observed_flags (d : stm32_dma_stream_t)
    (s : DMAState)
    (h : ((s.isr >>> d.shift) &&& STM32_DMA_ISR_MASK) &&& s.ccr ≠ 0) :
    callbackFlags (dmaServeInterrupt d true s).2 =
      [(s.isr >>> d.shift) &&& STM32_DMA_ISR_MASK] :=
  serveInterrupt_callbackFlags_pos d s h

/-- C2, witness for the amended theorem at shift 4, ISR = 160, CCR = 2. -/
theorem C2_callback_gets_observed_flags_witness :
    callbackFlags (dmaServeInterrupt ⟨4⟩ true ⟨160, 0, 0, 0, 2⟩).2 =
      [(((160 : Nat)) >>> 4) &&& STM32_DMA_ISR_MASK] :=
  C2_callback_gets_observed_flags ⟨4⟩ ⟨160, 0, 0, 0, 2⟩ (by decide)

/-- C3: when the observed shifted-and-masked status bits ANDed with the
raw control-register value are zero, dmaServeInterrupt leaves the state
unchanged and emits no write and no callback; and with a null
redirection callback no callback is ever invoked — the interrupt is
skipped silently (the dispatcher is total, no error path exists). -/
theorem C3_skip_silently (d : stm32_dma_stream_t) (cb : Bool)
    (s : DMAState) :
    (((s.isr >>> d.shift) &&& STM32_DMA_ISR_MASK) &&& s.ccr = 0 →
      dmaServeInterrupt d cb s = (s, [])) ∧
    callbackFlags (dmaServeInterrupt d false s).2 = [] :=
  ⟨serveInterrupt_eq_of_zero d cb s, serveInterrupt_callbackFlags_none d s⟩

/-- C3, witness: at shift 0, ISR = 8 (transfer-error pending) and
CCR = 2 (only transfer-complete-enable), the filtered result is zero
and the dispatcher does nothing. -/
theorem C3_skip_silently_witness :
    dmaServeInterrupt ⟨0⟩ true ⟨8, 0, 0, 0, 2⟩ = (⟨8, 0, 0, 0, 2⟩, []) :=
  (C3_skip_silently ⟨0⟩ true ⟨8, 0, 0, 0, 2⟩).1 (by decide)

/-- C4: for every prior state, dmaStreamDisable performs exactly one
control-register write clearing the enable bit and the three
interrupt-enable bits, followed by one clear-flags-register write; in
the resulting state the enable and interrupt-enable bits are zero and
the stream's pending status flags (the three-bit mask at its offset)
are cleared. -/
theorem C4_disable_order_and_postcondition (d : stm32_dma_stream_t)
    (s : DMAState) (hsh : d.shift ≤ 28) :
    (dmaStreamDisable d s).2 =
      [Event.write Reg.ccr (s.ccr &&&
          (MASK32 ^^^ (STM32_DMA_CR_TCIE ||| STM32_DMA_CR_HTIE |||
                       STM32_DMA_CR_TEIE ||| STM32_DMA_CR_EN))),
       Event.write Reg.ifcr (STM32_DMA_ISR_MASK <<< d.shift)] ∧
    (dmaStreamDisable d s).1.ccr &&&
      (STM32_DMA_CR_EN ||| STM32_DMA_CR_TCIE ||| STM32_DMA_CR_HTIE |||
       STM32_DMA_CR_TEIE) = 0 ∧
    (dmaStreamDisable d s).1.isr &&& (STM32_DMA_ISR_MASK <<< d.shift) = 0 :=
  ⟨dmaStreamDisable_trace d s, dmaStreamDisable_ccr_cleared d s,
   dmaStreamDisable_isr_cleared d s hsh⟩

/-- C4, witness at shift 4 with all status flags pending and a fully
populated control register. -/
theorem C4_disable_order_and_postcondition_witness :
    (dmaStreamDisable ⟨4⟩ ⟨255, 1, 2, 3, 255⟩).2 =
      [Event.write Reg.ccr ((255 : Nat) &&&
          (MASK32 ^^^ (STM32_DMA_CR_TCIE ||| STM32_DMA_CR_HTIE |||
                       STM32_DMA_CR_TEIE ||| STM32_DMA_CR_EN))),
       Event.write Reg.ifcr (STM32_DMA_ISR_MASK <<< 4)] ∧
    (dmaStreamDisable ⟨4⟩ ⟨255, 1, 2, 3, 255⟩).1.ccr &&&
      (STM32_DMA_CR_EN ||| STM32_DMA_CR_TCIE ||| STM32_DMA_CR_HTIE |||
       STM32_DMA_CR_TEIE) = 0 ∧
    (dmaStreamDisable ⟨4⟩ ⟨255, 1, 2, 3, 255⟩).1.isr &&&
      (STM32_DMA_ISR_MASK <<< 4) = 0 :=
  C4_disable_order_and_postcondition ⟨4⟩ ⟨255, 1, 2, 3, 255⟩ (by decide)

/-- C5: for every mode, source, destination and count, dmaStartMemCopy
writes CPAR with the source, CMAR with the destination, CNDTR with the
count, then CCR with the caller's mode OR'd with the memory-increment,
peripheral-increment, memory-to-memory and enable bits; the resulting
control register contains those four bits in addition to caller bits. -/
theorem C5_memcopy_trace (s : DMAState) (mode src dst n : Nat) :
    (dmaStartMemCopy s mode src dst n).2 =
      [Event.write Reg.cpar src, Event.write Reg.cmar dst,
       Event.write Reg.cndtr n,
       Event.write Reg.ccr (mode ||| STM32_DMA_CR_MINC |||
         STM32_DMA_CR_PINC ||| STM32_DMA_CR_DIR_M2M ||| STM32_DMA_CR_EN)] ∧
    (dmaStartMemCopy s mode src dst n).1.cpar = src ∧
    (dmaStartMemCopy s mode src dst n).1.cmar = dst ∧
    (dmaStartMemCopy s mode src dst n).1.cndtr = n ∧
    (dmaStartMemCopy s mode src dst n).1.ccr &&&
        (STM32_DMA_CR_MINC ||| STM32_DMA_CR_PINC |||
         STM32_DMA_CR_DIR_M2M ||| STM32_DMA_CR_EN) =
      (STM32_DMA_CR_MINC ||| STM32_DMA_CR_PINC |||
       STM32_DMA_CR_DIR_M2M ||| STM32_DMA_CR_EN) := by
  refine ⟨rfl, rfl, rfl, rfl, ?_⟩
  show (mode ||| STM32_DMA_CR_MINC ||| STM32_DMA_CR_PINC |||
        STM32_DMA_CR_DIR_M2M ||| STM32_DMA_CR_EN) &&& _ = _
  simp only [Nat.lor_assoc]
  exact lor_land_absorb mode _

/-- C6: if the remaining-transfers register eventually reaches zero
(the poll bound exceeds the current count), dmaWaitCompletion
terminates, having invoked Disable (one control-register write then the
stream's clear-flags write); afterwards GetTransactionSize yields 0 and
the control register's enable bit is clear. -/
theorem C6_wait_completion (d : stm32_dma_stream_t) (fuel : Nat)
    (s : DMAState) (h : s.cndtr < fuel) :
    ∃ s2 c, dmaWaitCompletion d fuel s =
        some (s2, [Event.write Reg.ccr c,
                   Event.write Reg.ifcr (STM32_DMA_ISR_MASK <<< d.shift)]) ∧
      dmaStreamGetTransactionSize s2 = 0 ∧
      s2.ccr &&& STM32_DMA_CR_EN = 0 :=
  dmaWaitCompletion_spec d fuel s h

/-- C6, witness: a stream with transaction count 2 polled with bound 3
completes, reads back a zero transaction size, and has enable clear. -/
theorem C6_wait_completion_witness :
    ∃ s2 c, dmaWaitCompletion ⟨0⟩ 3 ⟨14, 0, 0, 2, 15⟩ =
        some (s2, [Event.write Reg.ccr c,
                   Event.write Reg.ifcr (STM32_DMA_ISR_MASK <<< 0)]) ∧
      dmaStreamGetTransactionSize s2 = 0 ∧
      s2.ccr &&& STM32_DMA_CR_EN = 0 :=
  C6_wait_completion ⟨0⟩ 3 ⟨14, 0, 0, 2, 15⟩ (by decide)

/-- C7, counterexample: with shift 0 and ISR = 0 (no status bit
pending), dmaStreamClearInterrupt writes 14 — the constant three-bit
mask — to the clear-flags register, while the currently-observed status
bits re-shifted to the offset are 0. -/
theorem C7_counterexample :
    (dmaStreamClearInterrupt ⟨0⟩ ⟨0, 0, 0, 0, 0⟩).2 =
      [Event.write Reg.ifcr 14] ∧
    ((((0 : Nat) >>> 0) &&& STM32_DMA_ISR_MASK) <<< 0) = 0 ∧
    (14 : Nat) ≠ 0 := by decide

/-- C7, amended: dmaStreamClearInterrupt writes the constant stream
status-bit mask 0x0E shifted to the stream's offset — independent of
the currently-observed status content — and leaves the control register
(including enable and interrupt-enable bits) and all other channel
registers unchanged. -/
theorem C7_clear_constant_mask (d : stm32_dma_stream_t) (s : DMAState) :
    (dmaStreamClearInterrupt d s).2 =
      [Event.write Reg.ifcr (STM32_DMA_ISR_MASK <<< d.shift)] ∧
    (dmaStreamClearInterrupt d s).1.ccr = s.ccr ∧
    (dmaStreamClearInterrupt d s).1.cpar = s.cpar ∧
    (dmaStreamClearInterrupt d s).1.cmar = s.cmar ∧
    (dmaStreamClearInterrupt d s).1.cndtr = s.cndtr :=
  ⟨rfl, rfl, rfl, rfl, rfl⟩

/-- C8: the priority validity check holds exactly for 0, 1, 2 and 3,
and an allocation with an invalid priority fails with InvalidPriority
regardless of the redirection-table contents. -/
theorem C8_priority_range (p : Nat) :
    (STM32_DMA_IS_VALID_PRIORITY p = true ↔ 0 ≤ p ∧ p ≤ 3) ∧
    (STM32_DMA_IS_VALID_PRIORITY p = false →
      ∀ redir, dmaStreamAllocate p redir =
        Except.error AllocError.invalidPriority) := by
  constructor
  · simp [STM32_DMA_IS_VALID_PRIORITY]
  · intro h redir
    simp [dmaStreamAllocate, h]

/-- C8, witness: priority 4 is invalid and allocation with it fails
with InvalidPriority even though a stream is free. -/
theorem C8_priority_range_witness :
    dmaStreamAllocate 4 [false] =
      Except.error AllocError.invalidPriority :=
  (C8_priority_range 4).2 (by decide) [false]

/-- C9, counterexample: CFE_PSP_Restart returns normally (its body only
discards reset_type), so it is not a routine that never returns. -/
theorem C9_counterexample :
    CFE_PSP_Restart 0 = PSPOutcome.returned ∧
    CFE_PSP_Restart 0 ≠ PSPOutcome.halted 0 := by decide

/-- C9, amended: CFE_PSP_Panic forwards its opaque error code to the
external halt routine and never returns, for every error code;
CFE_PSP_Restart's behaviour is independent of reset_type, but it is an
unimplemented stub that performs no action and returns to its caller. -/
theorem C9_panic_halts_restart_returns (code : Int) (rt rt2 : Nat) :
    CFE_PSP_Panic code = PSPOutcome.halted code ∧
    CFE_PSP_Panic code ≠ PSPOutcome.returned ∧
    CFE_PSP_Restart rt = CFE_PSP_Restart rt2 ∧
    CFE_PSP_Restart rt = PSPOutcome.returned :=
  ⟨rfl, fun h => PSPOutcome.noConfusion h, rfl, rfl⟩

/-- C10: every value the dispatcher writes to the shared clear-flags
register lies within the three-bit mask 0x0E shifted by the stream's
own offset, and never includes the stream's global-flag bit at the
offset itself — so dispatching one stream never clears another
stream's flags. -/
theorem C10_ack_within_stream_window (d : stm32_dma_stream_t) (cb : Bool)
    (s : DMAState) :
    ∀ v ∈ ifcrWrites (dmaServeInterrupt d cb s).2,
      v &&& (STM32_DMA_ISR_MASK <<< d.shift) = v ∧
      v &&& ((1 : Nat) <<< d.shift) = 0 := by
  intro v hv
  by_cases h : ((s.isr >>> d.shift) &&& STM32_DMA_ISR_MASK) &&& s.ccr ≠ 0
  · rw [serveInterrupt_ifcrWrites_pos d cb s h, List.mem_singleton] at hv
    subst hv
    constructor
    · rw [shiftLeft_land_shiftLeft, Nat.land_assoc]
      norm_num [STM32_DMA_ISR_MASK]
    · rw [shiftLeft_land_shiftLeft, Nat.land_assoc]
      have e : STM32_DMA_ISR_MASK &&& 1 = 0 := by decide
      rw [e, Nat.and_zero, Nat.zero_shiftLeft]
  · rw [not_ne_iff] at h
    rw [serveInterrupt_eq_of_zero d cb s h] at hv
    simp [ifcrWrites] at hv

/-- C10, witness: at shift 0 with ISR = 14 and CCR = 15, the write
value 14 stays inside the window and misses the global-flag bit. -/
theorem C10_ack_within_stream_window_witness :
    (14 : Nat) &&& (STM32_DMA_ISR_MASK <<< 0) = 14 ∧
    (14 : Nat) &&& ((1 : Nat) <<< 0) = 0 :=
  C10_ack_within_stream_window ⟨0⟩ true ⟨14, 0, 0, 0, 15⟩ 14 (by decide)
